import Mathlib

/-!
Verification of the work-progress-system surface-metrology core.

This file gives a shallow embedding, over exact rationals, of the
algorithmic core of the repository:

* `show.py` — tabular validation (`validate_every_cell`), the stepped
  bowl base surface (`_build_stepped_bowl_surface`) and the per-point
  ring classifiers (`get_step_height`, `get_original_step_height`);
* `pages/3_Dimple_3D視覺化.py` — the dispersion statistics, sigma-band
  counts and the Cpk block;
* `pages/6_三平面視覺化.py` — the non-linear Z display transform
  (`non_linear_scale_z`) and the interpolation fallback
  (`griddata_with_fallback`).

Machine floats are modelled as exact rationals; the comparison
`sqrt (x² + y²) ≤ dia / 2` is modelled exactly as
`0 ≤ dia ∧ x² + y² ≤ (dia / 2)²`, which is equivalent over the reals.
-/

namespace WPS

/-! ## StepProfile (`show.py`)

Python's `sorted(steps, key=lambda t: t[0], reverse=True)` is a stable
descending sort by the first component (the diameter).  We embed it as a
stable insertion sort: an element is inserted strictly in front of the
first element with a smaller diameter, so entries with equal diameters
keep their original relative order, exactly as in Python. -/

/-- Insert one `(diameter, height)` pair into a list already sorted in
descending diameter order, keeping the sort stable. -/
def insertDiaDesc (p : ℚ × ℚ) : List (ℚ × ℚ) → List (ℚ × ℚ)
  | [] => [p]
  | q :: qs => if q.1 < p.1 then p :: q :: qs else q :: insertDiaDesc p qs

/-- Stable descending sort by diameter:
`sorted(steps, key=lambda t: t[0], reverse=True)`. -/
def sortDiaDesc : List (ℚ × ℚ) → List (ℚ × ℚ)
  | [] => []
  | p :: ps => insertDiaDesc p (sortDiaDesc ps)

/-- Exact model of the containment test `sqrt(x² + y²) <= dia / 2`
performed by the classifiers and by the grid mask `R <= dia / 2`:
over the reals this holds iff `0 ≤ dia` and `x² + y² ≤ (dia / 2)²`. -/
def inStep (x y dia : ℚ) : Prop :=
  0 ≤ dia ∧ x ^ 2 + y ^ 2 ≤ (dia / 2) ^ 2

instance (x y dia : ℚ) : Decidable (inStep x y dia) :=
  inferInstanceAs (Decidable (_ ∧ _))

/-- Scan a ring list in the given order and return the height of the
first ring containing the point, `0.0` if none does (`show.py` lines
163-166, the body of `get_step_height` after sorting). -/
def firstContaining (x y : ℚ) : List (ℚ × ℚ) → ℚ
  | [] => 0
  | s :: rest => if inStep x y s.1 then s.2 else firstContaining x y rest

/-- `get_step_height(x_val, y_val)` from `show.py` lines 160-166: sorts
`scaled_steps` in *descending* diameter order and returns the height of
the first ring whose radius contains the point, `0.0` otherwise.  Note
the first ring examined is the largest one. -/
def get_step_height (scaled_steps : List (ℚ × ℚ)) (x y : ℚ) : ℚ :=
  firstContaining x y (sortDiaDesc scaled_steps)

/-- The maximum diameter of a profile
(`outer_dia = max([dia for dia, _ in base_profile])`, `show.py` line 135);
`0` for the empty profile, which the caller excludes
(`len(base_profile) >= 2`). -/
def maxDia : List (ℚ × ℚ) → ℚ
  | [] => 0
  | s :: rest => (rest.map Prod.fst).foldl max s.1

/-- The `scaled_steps` list built by the loop in
`_build_stepped_bowl_surface` (`show.py` lines 108-114) before the top
alignment: the profile sorted in descending diameter order with every
height multiplied by `z_scale`. -/
def scaledStepsRaw (base_profile : List (ℚ × ℚ)) (z_scale : ℚ) : List (ℚ × ℚ) :=
  (sortDiaDesc base_profile).map (fun s => (s.1, s.2 * z_scale))

/-- `top_value = np.max(Z[finite_mask])` (`show.py` line 118), in the
continuum idealisation of the 400×400 grid: with the outer radius taken
as `maxDia / 2` (as at the call site, `show.py` lines 135-139) every
finite grid cell carries the scaled height of the tightest ring
containing it, and for distinct positive diameters every scaled height
is attained, so the grid maximum is the maximum of the scaled heights. -/
def topValue : List (ℚ × ℚ) → Option ℚ
  | [] => none
  | s :: rest => some ((rest.map Prod.snd).foldl max s.2)

/-- The `scaled_steps` list returned by `_build_stepped_bowl_surface`
(`show.py` lines 108-122): scale every height by `z_scale`, then
subtract the maximum resulting height from every entry
(`scaled_steps = [(dia, depth - top_value) for dia, depth in scaled_steps]`). -/
def buildScaledSteps (base_profile : List (ℚ × ℚ)) (z_scale : ℚ) : List (ℚ × ℚ) :=
  let ss := scaledStepsRaw base_profile z_scale
  match topValue ss with
  | none => ss
  | some t => ss.map (fun s => (s.1, s.2 - t))

/-- Per-point value of the bowl grid `Z` built by
`_build_stepped_bowl_surface` (`show.py` lines 100-120), again in the
continuum idealisation, with the outer radius `maxDia / 2` of the call
site: `none` (NaN) outside the outer radius, otherwise the successive
masked writes `Z[R <= dia/2] = depth * z_scale` leave the scaled height
of the *smallest* containing ring (later, smaller masks overwrite
earlier, larger ones), finally shifted down by `top_value`. -/
def bowlGridZ (base_profile : List (ℚ × ℚ)) (z_scale x y : ℚ) : Option ℚ :=
  if inStep x y (maxDia base_profile) then
    some ((scaledStepsRaw base_profile z_scale).foldl
      (fun acc s => if inStep x y s.1 then s.2 else acc) 0
      - (topValue (scaledStepsRaw base_profile z_scale)).getD 0)
  else none

/-- The concrete profile of the spec's scenario 1:
`[(100, 0.0), (60, -0.05), (20, -0.10)]`. -/
def profile1 : List (ℚ × ℚ) := [(100, 0), (60, -1/20), (20, -1/10)]

theorem mem_insertDiaDesc (p a : ℚ × ℚ) (l : List (ℚ × ℚ)) :
    a ∈ insertDiaDesc p l ↔ a = p ∨ a ∈ l := by
  induction l with
  | nil => simp [insertDiaDesc]
  | cons q qs ih =>
    simp only [insertDiaDesc]
    split
    · simp [List.mem_cons]
    · simp only [List.mem_cons, ih]
      tauto

theorem mem_sortDiaDesc (l : List (ℚ × ℚ)) (a : ℚ × ℚ) :
    a ∈ sortDiaDesc l ↔ a ∈ l := by
  induction l with
  | nil => simp [sortDiaDesc]
  | cons p ps ih =>
    simp only [sortDiaDesc, mem_insertDiaDesc, ih, List.mem_cons]

theorem foldl_max_eq_of_le (l : List ℚ) (b : ℚ) (h : ∀ x ∈ l, x ≤ b) :
    l.foldl max b = b := by
  induction l with
  | nil => rfl
  | cons x xs ih =>
    simp only [List.foldl_cons]
    rw [max_eq_left (h x (by simp))]
    exact ih fun y hy => h y (by simp [hy])

end WPS

/-- C1: the claim states that `get_step_height` iterates rings from the
smallest diameter to the largest so the tightest containing ring wins,
classifying a point at radius 10 of the profile
`[(100, 0.0), (60, -0.05), (20, -0.10)]` to height `-0.10`, and the
origin to the innermost ring's scaled height.  The code sorts the rings
in *descending* diameter order and returns on the first match, so the
outermost ring (which contains every in-range point) always wins: at
radius 10 and at the origin it returns `0`, while the rendered bowl
surface it is documented to match carries `-0.10` at both points. -/
theorem c1_get_step_height_outermost_ring_wins :
    WPS.get_step_height (WPS.buildScaledSteps WPS.profile1 1) 10 0 = 0
    ∧ WPS.get_step_height (WPS.buildScaledSteps WPS.profile1 1) 0 0 = 0
    ∧ WPS.bowlGridZ WPS.profile1 1 10 0 = some (-1/10)
    ∧ WPS.bowlGridZ WPS.profile1 1 0 0 = some (-1/10)
    ∧ (0 : ℚ) ≠ -1/10 := by
  refine ⟨?_, ?_, ?_, ?_, by norm_num⟩ <;>
    norm_num [WPS.get_step_height, WPS.firstContaining, WPS.sortDiaDesc,
      WPS.insertDiaDesc, WPS.inStep, WPS.buildScaledSteps, WPS.scaledStepsRaw,
      WPS.topValue, WPS.bowlGridZ, WPS.maxDia, WPS.profile1]

/-- C5: the claim states that for *every* step profile and *every* scale
factor the outermost ring's height in the scaled profile is exactly 0
after top-alignment.  The code subtracts the *maximum* scaled height
from every entry, which is the outer ring's height only when that ring
is the highest: for the profile `[(100, 0), (60, 1)]` with scale factor
1 the outermost ring ends at height `-1`, not `0`. -/
theorem c5_outer_ring_not_always_zero :
    ((WPS.buildScaledSteps [((100 : ℚ), (0 : ℚ)), (60, 1)] 1).head?.map Prod.snd)
      = some (-1)
    ∧ some (-1 : ℚ) ≠ some (0 : ℚ) := by
  constructor
  · norm_num [WPS.buildScaledSteps, WPS.scaledStepsRaw, WPS.sortDiaDesc,
      WPS.insertDiaDesc, WPS.topValue]
  · norm_num

/-- C5 (amended): `_build_stepped_bowl_surface` multiplies every height
by the scale factor and subtracts the maximum resulting height from all
heights; the outermost ring's height is exactly 0 whenever the
outermost ring is the highest one of the profile and the scale factor
is nonnegative (in particular for every bowl-shaped profile at the call
site's `z_scale=1.0`). -/
theorem c5_outer_ring_zero_of_bowl (p : List (ℚ × ℚ)) (z : ℚ) (hz : 0 ≤ z)
    (r : ℚ × ℚ) (hr : (WPS.sortDiaDesc p).head? = some r)
    (hmax : ∀ q ∈ p, q.2 ≤ r.2) :
    ((WPS.buildScaledSteps p z).head?.map Prod.snd) = some 0 := by
  obtain ⟨rest, hsort⟩ : ∃ rest, WPS.sortDiaDesc p = r :: rest := by
    cases h : WPS.sortDiaDesc p with
    | nil => rw [h] at hr; simp at hr
    | cons a t =>
      rw [h] at hr
      simp only [List.head?_cons, Option.some.injEq] at hr
      exact ⟨t, by rw [hr]⟩
  have hb : ∀ x ∈ ((rest.map (fun s : ℚ × ℚ => (s.1, s.2 * z))).map Prod.snd),
      x ≤ r.2 * z := by
    intro x hx
    simp only [List.map_map, List.mem_map, Function.comp] at hx
    obtain ⟨q, hq, rfl⟩ := hx
    have hqp : q ∈ p := by
      rw [← WPS.mem_sortDiaDesc]
      rw [hsort]
      exact List.mem_cons_of_mem _ hq
    exact mul_le_mul_of_nonneg_right (hmax q hqp) hz
  unfold WPS.buildScaledSteps WPS.scaledStepsRaw
  rw [hsort]
  simp only [List.map_cons, WPS.topValue]
  rw [WPS.foldl_max_eq_of_le _ _ hb]
  simp

/-- C5 witness: for the spec's bowl profile
`[(100, 0.0), (60, -0.05), (20, -0.10)]` and scale factor 2 the
outermost ring of the scaled profile does sit at height 0. -/
theorem c5_outer_ring_zero_of_bowl_witness :
    ((WPS.buildScaledSteps WPS.profile1 2).head?.map Prod.snd) = some 0 :=
  c5_outer_ring_zero_of_bowl WPS.profile1 2 (by norm_num) (100, 0)
    (by norm_num [WPS.sortDiaDesc, WPS.insertDiaDesc, WPS.profile1])
    (by intro q hq; fin_cases hq <;> norm_num)

namespace WPS

/-! ## DispersionStats and CapabilityAnalysis
(`pages/3_Dimple_3D視覺化.py`)

The page computes, over the Z column of the uploaded table
(lines 132-147): `z_mean = z_values.mean()`, `z_std = z_values.std()`
(pandas sample standard deviation, `ddof=1`, which is NaN when fewer
than 2 finite values are present), the inclusive sigma-band counts, and
(lines 172-178) the Cpk block.  NaN results are modelled as `none`; the
sample is the list of finite values (pandas skips NaN entries). -/

/-- `z_values.mean()`: NaN (`none`) on an empty sample. -/
def sampleMean (xs : List ℚ) : Option ℚ :=
  if xs.length = 0 then none else some (xs.sum / xs.length)

/-- The square of `z_values.std()`: the pandas sample (`ddof=1`)
variance `Σ (x - mean)² / (n - 1)`, NaN (`none`) when the sample has
fewer than 2 values.  The standard deviation itself is its square
root, so it is `0` exactly when the variance is `0` and NaN exactly
when the variance is NaN. -/
def sampleVar (xs : List ℚ) : Option ℚ :=
  if xs.length < 2 then none
  else some ((xs.map (fun v => (v - xs.sum / xs.length) ^ 2)).sum
    / ((xs.length : ℚ) - 1))

/-- The statistics block of the page, lines 127-147: an empty table is
rejected up front (`if df.empty: st.stop()`, line 127-129), so the mean,
the variance and the total only ever get computed for a nonempty
sample. -/
def stats_block (xs : List ℚ) : Option (Option ℚ × Option ℚ × ℕ) :=
  if xs.length = 0 then none else some (sampleMean xs, sampleVar xs, xs.length)

/-- `len(z_values[(z_values >= lo) & (z_values <= hi)])`: the number of
sample values inside the inclusive interval `[lo, hi]`. -/
def withinCount (xs : List ℚ) (lo hi : ℚ) : ℕ :=
  (xs.filter fun v => decide (lo ≤ v) && decide (v ≤ hi)).length

/-- The sigma-band count `within_kstd` of lines 139-141: with a NaN
standard deviation (`none`, fewer than 2 finite values) every comparison
against `mean ± k·σ` is false and the count is 0; otherwise the count is
the inclusive `withinCount` over `[mean - k·σ, mean + k·σ]`. -/
def sigmaBandCount (xs : List ℚ) (m : ℚ) (s : Option ℚ) (k : ℚ) : ℕ :=
  match s with
  | none => 0
  | some σ => withinCount xs (m - k * σ) (m + k * σ)

theorem withinCount_mono (xs : List ℚ) (lo hi lo' hi' : ℚ)
    (hlo : lo' ≤ lo) (hhi : hi ≤ hi') :
    withinCount xs lo hi ≤ withinCount xs lo' hi' := by
  unfold withinCount
  induction xs with
  | nil => simp
  | cons x t ih =>
    simp only [List.filter_cons]
    cases h1 : (decide (lo ≤ x) && decide (x ≤ hi)) with
    | true =>
      have hx : lo ≤ x ∧ x ≤ hi := by
        simpa [Bool.and_eq_true, decide_eq_true_eq] using h1
      have h2 : (decide (lo' ≤ x) && decide (x ≤ hi')) = true := by
        simp only [Bool.and_eq_true, decide_eq_true_eq]
        exact ⟨le_trans hlo hx.1, le_trans hx.2 hhi⟩
      rw [h2]
      simpa using Nat.succ_le_succ ih
    | false =>
      cases h2 : (decide (lo' ≤ x) && decide (x ≤ hi')) with
      | true => simpa using Nat.le_succ_of_le ih
      | false => simpa using ih

theorem withinCount_le_length (xs : List ℚ) (lo hi : ℚ) :
    withinCount xs lo hi ≤ xs.length :=
  List.length_filter_le _ _

end WPS

/-- C4: the claim states that the statistics use the sample (n−1)
standard deviation, give `stddev = 0` for samples with fewer than 2
finite values, and return an all-zero result on an empty sample.  The
(n−1) definition is right, but pandas `std()` yields NaN — not 0 — on a
sample of fewer than 2 values (here: the singleton `[5]`), and an empty
table is rejected by the `df.empty` guard before any statistic is
computed, so no all-zero result is ever produced. -/
theorem c4_small_sample_std_is_nan :
    WPS.sampleVar [(5 : ℚ)] = none
    ∧ WPS.sampleVar [(5 : ℚ)] ≠ some 0
    ∧ WPS.stats_block ([] : List ℚ) = none := by
  refine ⟨by norm_num [WPS.sampleVar], ?_, by norm_num [WPS.stats_block]⟩
  simp [WPS.sampleVar]

/-- C4 (amended): the standard deviation follows the sample (n−1)
definition — on `[1, 2, 3, 4, 5]` the variance is `10 / 4 = 5/2`, i.e.
stddev `≈ 1.5811` — but any sample with fewer than 2 finite values gets
a NaN standard deviation rather than 0, and an empty sample is rejected
by the `df.empty` guard rather than producing an all-zero result; no
exception or division by zero occurs on the guarded path. -/
theorem c4_sample_variance_behaviour (xs : List ℚ) (h : xs.length < 2) :
    WPS.sampleVar xs = none
    ∧ WPS.sampleVar [(1 : ℚ), 2, 3, 4, 5] = some (5 / 2)
    ∧ WPS.stats_block ([] : List ℚ) = none := by
  refine ⟨by simp [WPS.sampleVar, h], ?_, by norm_num [WPS.stats_block]⟩
  norm_num [WPS.sampleVar]

/-- C4 witness: the amended statement instantiated at the singleton
sample `[5]`. -/
theorem c4_sample_variance_behaviour_witness :
    WPS.sampleVar [(5 : ℚ)] = none
    ∧ WPS.sampleVar [(1 : ℚ), 2, 3, 4, 5] = some (5 / 2)
    ∧ WPS.stats_block ([] : List ℚ) = none :=
  c4_sample_variance_behaviour [(5 : ℚ)] (by norm_num)

/-- C6: for every sample, every mean and every standard deviation the
code can produce (a nonnegative rational, or NaN for samples with fewer
than 2 finite values — the code's σ is a square root, hence nonnegative
whenever it is a number), the inclusively-counted sigma-band counts are
nested: `within1Sigma ≤ within2Sigma ≤ within3Sigma ≤ total`. -/
theorem c6_sigma_bands_nested (xs : List ℚ) (m : ℚ) (s : Option ℚ)
    (hs : ∀ σ, s = some σ → 0 ≤ σ) :
    WPS.sigmaBandCount xs m s 1 ≤ WPS.sigmaBandCount xs m s 2
    ∧ WPS.sigmaBandCount xs m s 2 ≤ WPS.sigmaBandCount xs m s 3
    ∧ WPS.sigmaBandCount xs m s 3 ≤ xs.length := by
  cases s with
  | none => exact ⟨Nat.le.refl, Nat.le.refl, Nat.zero_le _⟩
  | some σ =>
    have hσ : 0 ≤ σ := hs σ rfl
    refine ⟨WPS.withinCount_mono xs _ _ _ _ (by linarith) (by linarith),
      WPS.withinCount_mono xs _ _ _ _ (by linarith) (by linarith),
      WPS.withinCount_le_length xs _ _⟩

/-- C6 witness: the spec's scenario-2 sample `[1, 2, 3, 4, 5]` with
mean 3 and standard deviation `3/2` (a rational stand-in for
`√(5/2) ≈ 1.5811`). -/
theorem c6_sigma_bands_nested_witness :
    WPS.sigmaBandCount [(1 : ℚ), 2, 3, 4, 5] 3 (some (3 / 2)) 1
      ≤ WPS.sigmaBandCount [(1 : ℚ), 2, 3, 4, 5] 3 (some (3 / 2)) 2
    ∧ WPS.sigmaBandCount [(1 : ℚ), 2, 3, 4, 5] 3 (some (3 / 2)) 2
      ≤ WPS.sigmaBandCount [(1 : ℚ), 2, 3, 4, 5] 3 (some (3 / 2)) 3
    ∧ WPS.sigmaBandCount [(1 : ℚ), 2, 3, 4, 5] 3 (some (3 / 2)) 3
      ≤ ([(1 : ℚ), 2, 3, 4, 5]).length :=
  c6_sigma_bands_nested [(1 : ℚ), 2, 3, 4, 5] 3 (some (3 / 2))
    (by intro σ h; injection h with h'; rw [← h']; norm_num)

namespace WPS

/-- Result of the Cpk block of `pages/3_Dimple_3D視覺化.py`, lines
172-178.  `cpkUpper`/`cpkLower` are `none` when the `else` branch runs,
since `cpk_upper` and `cpk_lower` are then never assigned (the later
display of `cpk_upper` at line 225 raises a NameError caught by the
page's generic handler).  `invalidSpecRangeError` records whether the
error banner `st.error("規格上限必須大於規格下限")` was emitted. -/
structure CpkBlockResult where
  cpk : ℚ
  cpkUpper : Option ℚ
  cpkLower : Option ℚ
  invalidSpecRangeError : Bool
  deriving DecidableEq

/-- The Cpk block, lines 172-178: when `usl > lsl` it computes
`cpk_upper = (usl - z_mean) / (3 * z_std)`,
`cpk_lower = (z_mean - lsl) / (3 * z_std)` and
`cpk = min(cpk_upper, cpk_lower)`; otherwise it sets `cpk = 0` and
shows the error banner.  There is no `z_std > 0` check anywhere. -/
def cpk_block (z_mean z_std usl lsl : ℚ) : CpkBlockResult :=
  if lsl < usl then
    { cpk := min ((usl - z_mean) / (3 * z_std)) ((z_mean - lsl) / (3 * z_std))
      cpkUpper := some ((usl - z_mean) / (3 * z_std))
      cpkLower := some ((z_mean - lsl) / (3 * z_std))
      invalidSpecRangeError := false }
  else
    { cpk := 0, cpkUpper := none, cpkLower := none,
      invalidSpecRangeError := true }

/-- The four Cpk bands of lines 211-222 of the page. -/
inductive CpkBand where
  | excellent
  | good
  | acceptable
  | needsImprovement
  deriving DecidableEq

/-- The status banding of lines 211-222:
`cpk >= 1.67` → excellent (優秀), `cpk >= 1.33` → good (良好),
`cpk >= 1.0` → acceptable (可接受), otherwise needs improvement
(需改善); each boundary is inclusive on the lower edge. -/
def cpk_status (cpk : ℚ) : CpkBand :=
  if 167/100 ≤ cpk then .excellent
  else if 133/100 ≤ cpk then .good
  else if 1 ≤ cpk then .acceptable
  else .needsImprovement

/-- Modelled from the spec (refinement reference for C2, not from the
source): `computeCpk` as the spec words it — valid only when
`stddev > 0` and `usl > lsl`, otherwise `cpk = None`. -/
def computeCpk_specModel (mean stddev usl lsl : ℚ) : Option ℚ :=
  if 0 < stddev ∧ lsl < usl then
    some (min ((usl - mean) / (3 * stddev)) ((mean - lsl) / (3 * stddev)))
  else none

end WPS

/-- C2: the claim states that for USL ≤ LSL (e.g. USL = LSL = 0.5) the
code returns `cpk = None` with status "invalid spec range" and never a
numeric placeholder such as 0.  The code does emit an error banner, but
it assigns the numeric placeholder `cpk = 0` — exactly what the claim
says never happens — while the spec-worded model returns `none`. -/
theorem c2_invalid_spec_range_yields_zero :
    (WPS.cpk_block (1/2) (1/10) (1/2) (1/2)).cpk = 0
    ∧ (WPS.cpk_block (1/2) (1/10) (1/2) (1/2)).invalidSpecRangeError = true
    ∧ WPS.computeCpk_specModel (1/2) (1/10) (1/2) (1/2) = none := by
  refine ⟨?_, ?_, ?_⟩ <;>
    norm_num [WPS.cpk_block, WPS.computeCpk_specModel]

/-- C2 (amended): whenever USL ≤ LSL the Cpk block emits the error
banner "規格上限必須大於規格下限" and sets `cpk` to the numeric
placeholder 0; `cpk_upper` and `cpk_lower` are left unassigned, and no
`None`-valued result or "invalid spec range" status string exists.
There is also no `stddev > 0` validity check. -/
theorem c2_invalid_spec_range_behaviour (z_mean z_std usl lsl : ℚ)
    (h : usl ≤ lsl) :
    WPS.cpk_block z_mean z_std usl lsl =
      { cpk := 0, cpkUpper := none, cpkLower := none,
        invalidSpecRangeError := true } := by
  unfold WPS.cpk_block
  rw [if_neg (not_lt.mpr h)]

/-- C2 witness: the amended statement at USL = LSL = 0.5 (the spec's
scenario 4). -/
theorem c2_invalid_spec_range_behaviour_witness :
    WPS.cpk_block (1/2) (1/10) (1/2) (1/2) =
      { cpk := 0, cpkUpper := none, cpkLower := none,
        invalidSpecRangeError := true } :=
  c2_invalid_spec_range_behaviour (1/2) (1/10) (1/2) (1/2) le_rfl

/-- C3: the claim states that USL = 1.0, LSL = 0.0, mean = 0.5,
stddev = 0.1 give cpk = cpkUpper = cpkLower = 1.667 with status
"excellent".  The exact value is `5/3 = 1.6666…` (displayed as `1.667`
by the `:.3f` format), which is *strictly below* the 1.67 threshold, so
the banding assigns "good" (良好), not "excellent" (優秀). -/
theorem c3_scenario_status_is_good_not_excellent :
    (WPS.cpk_block (1/2) (1/10) 1 0).cpkUpper = some (5/3)
    ∧ (WPS.cpk_block (1/2) (1/10) 1 0).cpkLower = some (5/3)
    ∧ (WPS.cpk_block (1/2) (1/10) 1 0).cpk = 5/3
    ∧ WPS.cpk_status ((WPS.cpk_block (1/2) (1/10) 1 0).cpk) = WPS.CpkBand.good
    ∧ WPS.CpkBand.good ≠ WPS.CpkBand.excellent := by
  refine ⟨?_, ?_, ?_, ?_, by simp⟩ <;>
    norm_num [WPS.cpk_block, WPS.cpk_status]

/-- C3 (amended): the scenario yields
cpkUpper = cpkLower = cpk = 5/3 ≈ 1.667, and since 5/3 < 1.67 the
banding — whose boundaries are indeed inclusive on the lower edge of
each band — assigns "good", not "excellent". -/
theorem c3_scenario_exact_values :
    (WPS.cpk_block (1/2) (1/10) 1 0).cpk = 5/3
    ∧ (5/3 : ℚ) < 167/100
    ∧ WPS.cpk_status (5/3) = WPS.CpkBand.good
    ∧ WPS.cpk_status (167/100) = WPS.CpkBand.excellent
    ∧ WPS.cpk_status (133/100) = WPS.CpkBand.good
    ∧ WPS.cpk_status 1 = WPS.CpkBand.acceptable
    ∧ WPS.cpk_status (99/100) = WPS.CpkBand.needsImprovement := by
  refine ⟨?_, by norm_num, ?_, ?_, ?_, ?_, ?_⟩ <;>
    norm_num [WPS.cpk_block, WPS.cpk_status]

namespace WPS

/-! ## PointSet validation (`show.py`, `validate_every_cell`)

A pandas cell is modelled by what the validator can observe of it:
a finite float, a non-finite float (`float('inf')`, produced e.g. when
pandas parses a CSV cell `inf`, or by `float("inf")`), a NaN cell
(`pd.isna` is true), or a piece of text together with whether Python's
`float()` accepts it.  `Cell.txt` carries that last fact as a field
because `float()`'s grammar belongs to the Python runtime, not to this
repository. -/

/-- One pandas cell, as observed by `validate_every_cell`. -/
inductive Cell where
  /-- A finite float value. -/
  | num (q : ℚ)
  /-- Float infinity: parsed from `inf`, non-blank, `float()` succeeds,
  `str()` is `"inf"` (so its first character is alphabetic). -/
  | inf
  /-- A NaN cell: `pd.isna` is true. -/
  | nanv
  /-- A textual cell with the given content; `parses` records whether
  Python's `float()` accepts it. -/
  | txt (s : String) (parses : Bool)
  deriving DecidableEq

/-- Python's `str.strip()` on the character list of a string: drop
whitespace from both ends. -/
def stripChars (cs : List Char) : List Char :=
  ((cs.dropWhile (·.isWhitespace)).reverse.dropWhile (·.isWhitespace)).reverse

/-- `pd.isna(val) or str(val).strip() == ""` (`show.py` line 19). -/
def isBlankCell : Cell → Bool
  | .nanv => true
  | .txt s _ => stripChars s.toList = []
  | _ => false

/-- The name-cell check of lines 24-29:
`val_str.startswith("Z") or val_str[0].isalpha()` on
`str(val).strip()`.  `str()` of a finite float starts with a digit or
`-`, never alphabetic; `str(float('inf'))` is `"inf"`, which is. -/
def nameOk : Cell → Bool
  | .num _ => false
  | .inf => true
  | .nanv => false
  | .txt s _ =>
    match stripChars s.toList with
    | [] => false
    | c :: _ => c = 'Z' || c.isAlpha

/-- The value-cell check of lines 30-36: does `float(val)` succeed?
It succeeds on every float, including NaN and infinity. -/
def floatOk : Cell → Bool
  | .num _ => true
  | .inf => true
  | .nanv => true
  | .txt _ parses => parses

/-- Is the cell a finite number?  (What the claimed invariant "every
point has finite x, y, z" needs of a value cell.) -/
def isFiniteCell : Cell → Bool
  | .num _ => true
  | _ => false

/-- The structured content of the `ValueError`s raised by
`validate_every_cell`.  Row and column numbers are the 1-based
`idx+1` / `col+1` of the messages. -/
inductive ValError where
  /-- Line 10-13: `df.shape[1] != 6`; the message shows the six-column
  example format and the actual column count of the file, but no row
  number (the check runs on the whole table before any row is read). -/
  | wrongColumnCount (found : ℕ)
  /-- Line 19-22: empty/NaN cell at the given row and column. -/
  | emptyCell (row col : ℕ)
  /-- Line 24-29: name cell not starting with `Z`/a letter. -/
  | badName (row col : ℕ)
  /-- Line 30-36: value cell `float()` fails to parse. -/
  | badValue (row col : ℕ)
  deriving DecidableEq

/-- Whether the raised message cites a row number (`第 {idx+1} 列`):
every per-cell error does, the whole-table column-count error does
not. -/
def citesRowIndex : ValError → Bool
  | .wrongColumnCount _ => false
  | _ => true

/-- `row[col]`; rows of a 6-column DataFrame always have 6 cells
(pandas pads ragged CSV rows with NaN, which `Cell.nanv` also
models). -/
def cellAt (row : List Cell) (col : ℕ) : Cell :=
  row.getD col Cell.nanv

/-- The per-cell checks of lines 17-36, in source order: blank first,
then the name check on columns 0, 2, 4, and the `float()` parse check
on columns 1, 3, 5 (0-based; the messages are 1-based). -/
def validateCellAt (ri ci : ℕ) (v : Cell) : Option ValError :=
  if isBlankCell v then some (.emptyCell (ri + 1) (ci + 1))
  else if ci = 0 ∨ ci = 2 ∨ ci = 4 then
    if nameOk v then none else some (.badName (ri + 1) (ci + 1))
  else
    if floatOk v then none else some (.badValue (ri + 1) (ci + 1))

/-- The inner loop `for col in range(6)` of one row: the first failing
cell aborts. -/
def validateRow (ri : ℕ) (row : List Cell) : Option ValError :=
  validateCellAt ri 0 (cellAt row 0) <|>
  validateCellAt ri 1 (cellAt row 1) <|>
  validateCellAt ri 2 (cellAt row 2) <|>
  validateCellAt ri 3 (cellAt row 3) <|>
  validateCellAt ri 4 (cellAt row 4) <|>
  validateCellAt ri 5 (cellAt row 5)

/-- The outer loop `for idx, row in df.iterrows()`. -/
def validateRows (ri : ℕ) : List (List Cell) → Option ValError
  | [] => none
  | r :: rs => validateRow ri r <|> validateRows (ri + 1) rs

/-- `validate_every_cell(df)` (`show.py` lines 8-36): first the
whole-table column-count check `df.shape[1] != 6`, then the row/cell
loop.  `none` means the table is accepted. -/
def validate_every_cell (numCols : ℕ) (rows : List (List Cell)) :
    Option ValError :=
  if numCols ≠ 6 then some (.wrongColumnCount numCols)
  else validateRows 0 rows

/-- Do the three value cells (0-based columns 1, 3, 5) of a row parse
as floats? -/
def valueCellsParse (row : List Cell) : Bool :=
  floatOk (cellAt row 1) && floatOk (cellAt row 3) && floatOk (cellAt row 5)

theorem orElse_eq_none {α : Type} (a b : Option α) :
    (a <|> b) = none ↔ a = none ∧ b = none := by
  cases a <;> simp [Option.orElse]

theorem validateRow_none_valueCellsParse (ri : ℕ) (row : List Cell)
    (h : validateRow ri row = none) : valueCellsParse row = true := by
  unfold validateRow at h
  rw [orElse_eq_none] at h
  obtain ⟨h0, h⟩ := h
  rw [orElse_eq_none] at h
  obtain ⟨h1, h⟩ := h
  rw [orElse_eq_none] at h
  obtain ⟨h2, h⟩ := h
  rw [orElse_eq_none] at h
  obtain ⟨h3, h⟩ := h
  rw [orElse_eq_none] at h
  obtain ⟨h4, h5⟩ := h
  have hv : ∀ ci, ci = 1 ∨ ci = 3 ∨ ci = 5 →
      validateCellAt ri ci (cellAt row ci) = none →
      floatOk (cellAt row ci) = true := by
    intro ci hci hnone
    unfold validateCellAt at hnone
    rcases hb : isBlankCell (cellAt row ci) with _ | _
    · rw [hb] at hnone
      simp only [Bool.false_eq_true, if_false] at hnone
      have hname : ¬ (ci = 0 ∨ ci = 2 ∨ ci = 4) := by
        rcases hci with rfl | rfl | rfl <;> simp
      rw [if_neg hname] at hnone
      rcases hf : floatOk (cellAt row ci) with _ | _
      · rw [hf] at hnone
        simp at hnone
      · rfl
    · rw [hb] at hnone
      simp at hnone
  unfold valueCellsParse
  rw [hv 1 (by simp) h1, hv 3 (by simp) h3, hv 5 (by simp) h5]
  rfl

theorem validateRows_none_all (ri : ℕ) (rows : List (List Cell))
    (h : validateRows ri rows = none) :
    ∀ r ∈ rows, valueCellsParse r = true := by
  induction rows generalizing ri with
  | nil => intro r hr; simp at hr
  | cons r rs ih =>
    intro r' hr'
    unfold validateRows at h
    rw [orElse_eq_none] at h
    rcases List.mem_cons.mp hr' with rfl | h'
    · exact validateRow_none_valueCellsParse ri r' h.1
    · exact ih (ri + 1) h.2 r' h'

end WPS

/-- C8: the claim states that validation rejects any value cell that
fails to parse as a *finite* float, so every validated point has finite
x, y, z.  But Python's `float()` accepts `inf` (and pandas itself
parses a CSV cell `inf` to float infinity), so a row whose X value cell
is infinity passes `validate_every_cell` unchanged even though the
resulting coordinate is not finite. -/
theorem c8_validation_accepts_infinity :
    WPS.validate_every_cell 6
      [[WPS.Cell.txt "Z1" false, WPS.Cell.inf,
        WPS.Cell.txt "Z1" false, WPS.Cell.num 0,
        WPS.Cell.txt "Z1" false, WPS.Cell.num 0]] = none
    ∧ WPS.isFiniteCell WPS.Cell.inf = false := by
  constructor
  · rfl
  · rfl

/-- C8 (amended): validation rejects a value cell exactly when Python's
`float()` fails to parse it — so in every accepted table all value
cells *parse* as floats — but parseable non-finite values such as
infinity are accepted, hence finiteness of x, y, z is not guaranteed. -/
theorem c8_validated_value_cells_parse (numCols : ℕ)
    (rows : List (List WPS.Cell))
    (h : WPS.validate_every_cell numCols rows = none) :
    numCols = 6 ∧ ∀ r ∈ rows, WPS.valueCellsParse r = true := by
  unfold WPS.validate_every_cell at h
  by_cases h6 : numCols = 6
  · rw [if_neg (by simp [h6])] at h
    exact ⟨h6, WPS.validateRows_none_all 0 rows h⟩
  · rw [if_pos h6] at h
    simp at h

/-- C8 witness: the amended statement at a concrete accepted
single-row table. -/
theorem c8_validated_value_cells_parse_witness :
    (6 : ℕ) = 6 ∧ ∀ r ∈ [[WPS.Cell.txt "Z1" false, WPS.Cell.num (79578/10000),
        WPS.Cell.txt "Z1" false, WPS.Cell.num (-517/10000),
        WPS.Cell.txt "Z1" false, WPS.Cell.num (427/10000)]],
      WPS.valueCellsParse r = true :=
  c8_validated_value_cells_parse 6 _ (by rfl)

/-- C9: the claim states that a table whose rows have only 5 cells
fails with an error citing the *row index* and the expected count of
6.  The code does fail — the whole-table check `df.shape[1] != 6` fires
with a message showing the six-column example format and the actual
count (5) — but that message carries no row index: the check runs on
the DataFrame's shape before any row is examined. -/
theorem c9_five_cell_rows_error_has_no_row_index :
    WPS.validate_every_cell 5
      [[WPS.Cell.txt "Z1" false, WPS.Cell.num 1,
        WPS.Cell.txt "Z1" false, WPS.Cell.num 2,
        WPS.Cell.txt "Z1" false]]
      = some (WPS.ValError.wrongColumnCount 5)
    ∧ WPS.citesRowIndex (WPS.ValError.wrongColumnCount 5) = false := by
  exact ⟨rfl, rfl⟩

/-- C9 (amended): for any column count other than 6 — in particular a
table of 5-cell rows — validation fails with the `ValueError` of
`show.py` lines 10-13, which cites the actual column count and the
expected six-column example format but no row index, the shape check
being a property of the whole table. -/
theorem c9_wrong_column_count_error (numCols : ℕ)
    (rows : List (List WPS.Cell)) (h : numCols ≠ 6) :
    WPS.validate_every_cell numCols rows
      = some (WPS.ValError.wrongColumnCount numCols)
    ∧ WPS.citesRowIndex (WPS.ValError.wrongColumnCount numCols) = false := by
  refine ⟨?_, rfl⟩
  unfold WPS.validate_every_cell
  rw [if_pos h]

/-- C9 witness: the amended statement for an empty 5-column table. -/
theorem c9_wrong_column_count_error_witness :
    WPS.validate_every_cell 5 [] = some (WPS.ValError.wrongColumnCount 5)
    ∧ WPS.citesRowIndex (WPS.ValError.wrongColumnCount 5) = false :=
  c9_wrong_column_count_error 5 [] (by norm_num)

namespace WPS

/-! ## Interpolator fallback (`pages/6_三平面視覺化.py`,
`griddata_with_fallback`)

The scipy `griddata` call itself is external numerical code; it is
abstracted as a function from the method name to `none` (the call
raised) or `some grid` (the call returned a grid).  The loop of lines
56-67 tries the methods in the fixed tuple order and returns the first
result, raising a `ValueError` naming all three methods only when every
attempt raised. -/

/-- The interpolation methods, in the tuple
`("cubic", "linear", "nearest")`. -/
inductive GridMethod where
  | cubic
  | linear
  | nearest
  deriving DecidableEq

/-- The message of the `ValueError` raised at line 67 when every
method failed; it names the attempted methods cubic/linear/nearest. -/
def griddataErrMsg : String :=
  "griddata 插值失敗：cubic/linear/nearest 都無法完成，請檢查資料點分佈與數量。"

/-- The `for method in (...)` loop body: return the first method whose
`griddata` call does not raise. -/
def tryMethods {α : Type} (run : GridMethod → Option α) :
    List GridMethod → Option α
  | [] => none
  | m :: ms =>
    match run m with
    | some g => some g
    | none => tryMethods run ms

/-- `griddata_with_fallback` (lines 45-67): try cubic, then linear,
then nearest; raise the `ValueError` only if all three raised. -/
def griddata_with_fallback {α : Type} (run : GridMethod → Option α) :
    Except String α :=
  match tryMethods run [.cubic, .linear, .nearest] with
  | some g => .ok g
  | none => .error griddataErrMsg

end WPS

/-- C7: `griddata_with_fallback` attempts cubic, then linear, then
nearest, in that strict order; it returns the grid of the first method
that does not raise, and it raises the reconstruction `ValueError`
naming the attempted methods exactly when all three methods raise. -/
theorem c7_fallback_order {α : Type} (run : WPS.GridMethod → Option α) :
    (∀ g, run .cubic = some g → WPS.griddata_with_fallback run = .ok g)
    ∧ (run .cubic = none → ∀ g, run .linear = some g →
        WPS.griddata_with_fallback run = .ok g)
    ∧ (run .cubic = none → run .linear = none → ∀ g, run .nearest = some g →
        WPS.griddata_with_fallback run = .ok g)
    ∧ (WPS.griddata_with_fallback run = .error WPS.griddataErrMsg ↔
        run .cubic = none ∧ run .linear = none ∧ run .nearest = none)
    ∧ (∀ e, WPS.griddata_with_fallback run = .error e →
        e = WPS.griddataErrMsg) := by
  refine ⟨?_, ?_, ?_, ⟨?_, ?_⟩, ?_⟩
  · intro g hg
    simp [WPS.griddata_with_fallback, WPS.tryMethods, hg]
  · intro hc g hg
    simp [WPS.griddata_with_fallback, WPS.tryMethods, hc, hg]
  · intro hc hl g hg
    simp [WPS.griddata_with_fallback, WPS.tryMethods, hc, hl, hg]
  · intro he
    cases hc : run .cubic with
    | some g => simp [WPS.griddata_with_fallback, WPS.tryMethods, hc] at he
    | none =>
      cases hl : run .linear with
      | some g =>
        simp [WPS.griddata_with_fallback, WPS.tryMethods, hc, hl] at he
      | none =>
        cases hn : run .nearest with
        | some g =>
          simp [WPS.griddata_with_fallback, WPS.tryMethods, hc, hl, hn] at he
        | none => exact ⟨rfl, rfl, rfl⟩
  · rintro ⟨hc, hl, hn⟩
    simp [WPS.griddata_with_fallback, WPS.tryMethods, hc, hl, hn]
  · intro e he
    cases hc : run .cubic with
    | some g => simp [WPS.griddata_with_fallback, WPS.tryMethods, hc] at he
    | none =>
      cases hl : run .linear with
      | some g =>
        simp [WPS.griddata_with_fallback, WPS.tryMethods, hc, hl] at he
      | none =>
        cases hn : run .nearest with
        | some g =>
          simp [WPS.griddata_with_fallback, WPS.tryMethods, hc, hl, hn] at he
        | none =>
          simp [WPS.griddata_with_fallback, WPS.tryMethods, hc, hl, hn] at he
          exact he.symm

/-- C7 witness: a run whose cubic attempt raises and whose linear
attempt returns grid `42` yields `ok 42` through the second clause. -/
theorem c7_fallback_order_witness :
    WPS.griddata_with_fallback
      (fun m => if m = WPS.GridMethod.linear then some (42 : ℕ) else none)
      = .ok 42 :=
  (c7_fallback_order
    (fun m => if m = WPS.GridMethod.linear then some (42 : ℕ) else none)).2.1
    rfl 42 rfl

namespace WPS

/-! ## Non-linear Z display transform (`pages/6_三平面視覺化.py`,
`non_linear_scale_z`, lines 15-42)

The numpy masks are `mask1 = (z >= 0) & (z <= t1)`,
`mask2 = (z > t1) & (z <= t2)` and `mask3 = z > t2`; entries in no mask
(negative values) keep their original value via `z_scaled = z.copy()`.
For `t1 ≤ t2` the masks are pairwise disjoint, so the mask writes are
equivalent to the if-chain below. -/

/-- The mask2 write: `threshold1 + scale_factor * (z - threshold1)`. -/
def nlz_seg2 (t1 s z : ℚ) : ℚ := t1 + s * (z - t1)

/-- The mask3 write:
`threshold1 + scale_factor * (threshold2 - threshold1) + (z - threshold2)`. -/
def nlz_seg3 (t1 t2 s z : ℚ) : ℚ := t1 + s * (t2 - t1) + (z - t2)

/-- `non_linear_scale_z(z, threshold1, threshold2, scale_factor)`,
pointwise. -/
def non_linear_scale_z (t1 t2 s z : ℚ) : ℚ :=
  if 0 ≤ z ∧ z ≤ t1 then z
  else if t1 < z ∧ z ≤ t2 then nlz_seg2 t1 s z
  else if t2 < z then nlz_seg3 t1 t2 s z
  else z

theorem nlz_val_neg (s z : ℚ) (h : z < 0) :
    non_linear_scale_z (3/5) (4/5) s z = z := by
  unfold non_linear_scale_z
  rw [if_neg (by rintro ⟨h0, _⟩; linarith),
    if_neg (by rintro ⟨h0, _⟩; linarith),
    if_neg (by intro h0; linarith)]

theorem nlz_val_low (s z : ℚ) (h0 : 0 ≤ z) (h1 : z ≤ 3/5) :
    non_linear_scale_z (3/5) (4/5) s z = z := by
  unfold non_linear_scale_z
  rw [if_pos ⟨h0, h1⟩]

theorem nlz_val_mid (s z : ℚ) (h1 : 3/5 < z) (h2 : z ≤ 4/5) :
    non_linear_scale_z (3/5) (4/5) s z = nlz_seg2 (3/5) s z := by
  unfold non_linear_scale_z
  rw [if_neg (by rintro ⟨_, hb⟩; linarith), if_pos ⟨h1, h2⟩]

theorem nlz_val_high (s z : ℚ) (h : 4/5 < z) :
    non_linear_scale_z (3/5) (4/5) s z = nlz_seg3 (3/5) (4/5) s z := by
  unfold non_linear_scale_z
  rw [if_neg (by rintro ⟨_, hb⟩; linarith),
    if_neg (by rintro ⟨_, hb⟩; linarith), if_pos h]

theorem nlz_mono (s : ℚ) (hs : 0 < s) (z1 z2 : ℚ) (h12 : z1 ≤ z2) :
    non_linear_scale_z (3/5) (4/5) s z1 ≤ non_linear_scale_z (3/5) (4/5) s z2 := by
  rcases lt_or_le z1 0 with hz1 | hz1
  · rw [nlz_val_neg s z1 hz1]
    rcases lt_or_le z2 0 with hz2 | hz2
    · rw [nlz_val_neg s z2 hz2]; exact h12
    · rcases le_or_lt z2 (3/5) with h3 | h3
      · rw [nlz_val_low s z2 hz2 h3]; exact h12
      · rcases le_or_lt z2 (4/5) with h4 | h4
        · rw [nlz_val_mid s z2 h3 h4]; unfold nlz_seg2; nlinarith
        · rw [nlz_val_high s z2 h4]; unfold nlz_seg3; nlinarith
  · rcases le_or_lt z1 (3/5) with h3 | h3
    · rw [nlz_val_low s z1 hz1 h3]
      rcases le_or_lt z2 (3/5) with h3' | h3'
      · rw [nlz_val_low s z2 (le_trans hz1 h12) h3']; exact h12
      · rcases le_or_lt z2 (4/5) with h4' | h4'
        · rw [nlz_val_mid s z2 h3' h4']; unfold nlz_seg2; nlinarith
        · rw [nlz_val_high s z2 h4']; unfold nlz_seg3; nlinarith
    · rcases le_or_lt z1 (4/5) with h4 | h4
      · rw [nlz_val_mid s z1 h3 h4]
        rcases le_or_lt z2 (4/5) with h4' | h4'
        · rw [nlz_val_mid s z2 (lt_of_lt_of_le h3 h12) h4']
          unfold nlz_seg2
          nlinarith
        · rw [nlz_val_high s z2 h4']
          unfold nlz_seg2 nlz_seg3
          nlinarith
      · rw [nlz_val_high s z1 h4, nlz_val_high s z2 (lt_of_lt_of_le h4 h12)]
        unfold nlz_seg3
        linarith

end WPS

/-- C10: for the default thresholds 0.6 < 0.8 and every scale factor
s > 0, the transform `non_linear_scale_z` is pointwise monotone
non-decreasing, its three segments agree exactly at both thresholds
(the transform is continuous there), and every negative input is
returned unchanged — the identity-below-zero edge case the spec leaves
unstated. -/
theorem c10_nonlinear_scale_z_properties (s : ℚ) (hs : 0 < s) :
    (∀ z : ℚ, z < 0 → WPS.non_linear_scale_z (3/5) (4/5) s z = z)
    ∧ (∀ z1 z2 : ℚ, z1 ≤ z2 →
        WPS.non_linear_scale_z (3/5) (4/5) s z1
          ≤ WPS.non_linear_scale_z (3/5) (4/5) s z2)
    ∧ WPS.non_linear_scale_z (3/5) (4/5) s (3/5) = 3/5
    ∧ WPS.nlz_seg2 (3/5) s (3/5) = 3/5
    ∧ WPS.non_linear_scale_z (3/5) (4/5) s (4/5) = WPS.nlz_seg2 (3/5) s (4/5)
    ∧ WPS.nlz_seg2 (3/5) s (4/5) = WPS.nlz_seg3 (3/5) (4/5) s (4/5) := by
  refine ⟨fun z h => WPS.nlz_val_neg s z h,
    fun z1 z2 h => WPS.nlz_mono s hs z1 z2 h,
    WPS.nlz_val_low s (3/5) (by norm_num) le_rfl, ?_,
    WPS.nlz_val_mid s (4/5) (by norm_num) le_rfl, ?_⟩
  · unfold WPS.nlz_seg2; ring
  · unfold WPS.nlz_seg2 WPS.nlz_seg3; ring

/-- C10 witness: at the default scale factor 2, a negative input is
returned unchanged and the transform is monotone on a concrete pair
straddling both thresholds. -/
theorem c10_nonlinear_scale_z_properties_witness :
    WPS.non_linear_scale_z (3/5) (4/5) 2 (-1) = -1
    ∧ WPS.non_linear_scale_z (3/5) (4/5) 2 (7/10)
      ≤ WPS.non_linear_scale_z (3/5) (4/5) 2 (9/10) :=
  ⟨(c10_nonlinear_scale_z_properties 2 (by norm_num)).1 (-1) (by norm_num),
   (c10_nonlinear_scale_z_properties 2 (by norm_num)).2.1 (7/10) (9/10)
     (by norm_num)⟩
